import Mathlib

/-!
Shallow embedding of the Tanebi MCP server (src/src/index.ts): data model,
API client, response formatters and the three tool handlers, together with
theorems checking the specification's claims against this embedding.

Conventions used throughout:
* TypeScript string concatenation and template literals become `++` and
  `toString`; `Array.prototype.join(sep)` becomes `joinSep sep`.
* `Array.prototype.sort` (stable since ES2019, and it sorts the array in
  place) becomes `List.mergeSort`, which is a stable sort; the in-place
  mutation is made explicit by returning the post-call idea value from
  `formatIdeaDetailRun`.
* `fetch` responses are modelled by `HttpResponse`; `response.ok` is the
  2xx test.  JSON parsing is kept abstract as a function argument.
* Fallible operations return `Except String`.
-/

namespace Tanebi

/-- Embeds `Array.prototype.join(sep)`: empty array gives `""`, a singleton
gives its element, otherwise elements interleaved with the separator. -/
def joinSep (sep : String) : List String → String
  | [] => ""
  | [s] => s
  | s :: r :: rest => s ++ sep ++ joinSep sep (r :: rest)

/-- Embeds the `SimplifiedUser` interface (index.ts lines 62-66). -/
structure SimplifiedUser where
  id : Nat
  display_name : String
  avatar_path : Option String
deriving DecidableEq

/-- Embeds the `IdeaSummary` interface (index.ts lines 68-79). -/
structure IdeaSummary where
  id : Nat
  title : String
  visibility : String
  current_stage : String
  reactions_count : Nat
  comments_count : Nat
  is_bookmarked : Bool
  created_at : String
  updated_at : String
  user : SimplifiedUser
deriving DecidableEq

/-- Embeds the `IdeaLine` interface (index.ts lines 81-89). -/
structure IdeaLine where
  id : Nat
  line_type : String
  content : String
  position : Int
  comments_count : Nat
  created_at : String
  updated_at : String
deriving DecidableEq

/-- Embeds the `Reaction` interface (index.ts lines 91-96). -/
structure Reaction where
  id : Nat
  reaction_type : String
  created_at : String
  user : SimplifiedUser
deriving DecidableEq

/-- Embeds the `IdeaDetail` interface (index.ts lines 98-110). -/
structure IdeaDetail where
  id : Nat
  title : String
  visibility : String
  current_stage : String
  reactions_count : Nat
  is_bookmarked : Bool
  created_at : String
  updated_at : String
  user : SimplifiedUser
  lines : List IdeaLine
  reactions : List Reaction
deriving DecidableEq

/-- Embeds the `PaginationMeta` interface (index.ts lines 112-116). -/
structure PaginationMeta where
  current_page : Nat
  total_pages : Nat
  total_count : Nat
deriving DecidableEq

/-- Embeds the `IdeasListResponse` interface (index.ts lines 118-121). -/
structure IdeasListResponse where
  ideas : List IdeaSummary
  meta : PaginationMeta
deriving DecidableEq

/-- A request body for `create_idea` (index.ts lines 249-252).
`content = none` means the body object has no `content` key at all. -/
structure CreateIdeaBody where
  title : String
  visibility : String
  content : Option String
deriving DecidableEq

/-- An outgoing HTTP request as assembled by `apiRequest` (index.ts
lines 44-48): method, full path (including any query string), and the
optional JSON body. -/
structure Request where
  method : String
  path : String
  body : Option CreateIdeaBody
deriving DecidableEq

/-- An incoming HTTP response as observed by `apiRequest`: status code,
status text and raw body text. -/
structure HttpResponse where
  status : Nat
  statusText : String
  body : String
deriving DecidableEq

/-- Embeds `response.ok` of the fetch API: true exactly for 2xx statuses. -/
def HttpResponse.ok (r : HttpResponse) : Bool :=
  decide (200 ≤ r.status) && decide (r.status < 300)

/-- Embeds the response-handling part of `apiRequest` (index.ts lines 50-57):
on a non-ok status it fails with
`API request failed: {status} {statusText} - {errorBody}`, otherwise it
parses the body as JSON (the parser is kept abstract). -/
def apiRequest {T : Type} (parse : String → Except String T)
    (resp : HttpResponse) : Except String T :=
  if resp.ok then
    parse resp.body
  else
    Except.error ("API request failed: " ++ toString resp.status ++ " "
      ++ resp.statusText ++ " - " ++ resp.body)

/-- Embeds the base-URL computation (index.ts lines 10-12):
`process.env.TANEBI_API_BASE_URL?.replace(/\/+$/, "") || "https://tanebi.app"`.
This strips every trailing `/` character. -/
def stripTrailingSlashes (s : String) : String :=
  String.mk (List.reverse (List.dropWhile (fun c => c == '/') s.data.reverse))

/-- Embeds `API_BASE_URL` (index.ts lines 10-12) as a function of the
environment variable; `none` is an unset variable.  JavaScript `||` falls
through on the empty string, which is falsy. -/
def apiBaseUrl (env : Option String) : String :=
  match Option.map stripTrailingSlashes env with
  | none => "https://tanebi.app"
  | some s => if s = "" then "https://tanebi.app" else s

/-- Embeds `formatIdeaSummary` (index.ts lines 125-133). -/
def formatIdeaSummary (idea : IdeaSummary) : String :=
  joinSep "\n"
    [ "[ID: " ++ toString idea.id ++ "] " ++ idea.title
    , "  Stage: " ++ idea.current_stage ++ " | Visibility: " ++ idea.visibility
    , "  Author: " ++ idea.user.display_name
    , "  Reactions: " ++ toString idea.reactions_count ++ " | Comments: "
        ++ toString idea.comments_count
    , "  Created: " ++ idea.created_at ]

/-- The line comparison passed to `sort` (index.ts line 150):
`(a, b) => a.position - b.position` orders ascending by position. -/
def lineLE (a b : IdeaLine) : Bool :=
  decide (a.position ≤ b.position)

/-- Embeds `idea.lines.sort((a, b) => a.position - b.position)` (index.ts
line 150).  `Array.prototype.sort` is stable, as is `List.mergeSort`. -/
def sortLines (lines : List IdeaLine) : List IdeaLine :=
  List.mergeSort lines lineLE

/-- Embeds the `content` constant of `formatIdeaDetail` (index.ts
lines 146-157). -/
def ideaContent (idea : IdeaDetail) : String :=
  if 0 < idea.lines.length then
    "\n\n## Content\n\n" ++
      joinSep "\n\n" (List.map (fun line =>
          (if line.line_type = "heading" then "### " else "")
            ++ line.content
            ++ (if 0 < line.comments_count then
                  " [" ++ toString line.comments_count ++ " comments]"
                else ""))
        (sortLines idea.lines))
  else
    "\n\n(No content yet)"

/-- Embeds the `reactions` constant of `formatIdeaDetail` (index.ts
lines 159-165). -/
def ideaReactions (idea : IdeaDetail) : String :=
  if 0 < idea.reactions.length then
    "\n\n## Reactions\n\n" ++
      joinSep "\n" (List.map (fun r =>
          "- " ++ r.reaction_type ++ " by " ++ r.user.display_name)
        idea.reactions)
  else
    ""

/-- Embeds the `header` constant of `formatIdeaDetail` (index.ts
lines 136-144). -/
def ideaHeader (idea : IdeaDetail) : String :=
  joinSep "\n"
    [ "# " ++ idea.title
    , ""
    , "ID: " ++ toString idea.id
    , "Stage: " ++ idea.current_stage ++ " | Visibility: " ++ idea.visibility
    , "Author: " ++ idea.user.display_name
    , "Reactions: " ++ toString idea.reactions_count
    , "Created: " ++ idea.created_at ++ " | Updated: " ++ idea.updated_at ]

/-- Embeds `formatIdeaDetail` (index.ts lines 135-168) together with its
side effect: `idea.lines.sort(...)` on line 150 reorders the caller's
array in place, so the result pairs the returned text with the idea value
as it stands after the call (`sort` of an empty array is the empty array,
so the pair is also correct when no line exists and the sort never runs). -/
def formatIdeaDetailRun (idea : IdeaDetail) : String × IdeaDetail :=
  (ideaHeader idea ++ ideaContent idea ++ ideaReactions idea,
   { idea with lines := sortLines idea.lines })

/-- The text returned by `formatIdeaDetail` (index.ts line 167). -/
def formatIdeaDetail (idea : IdeaDetail) : String :=
  (formatIdeaDetailRun idea).1

/-- The two shapes a `get_idea` / `create_idea` API response can take
(index.ts lines 218, 254): the idea wrapped under an `idea` key, or the
idea object directly. -/
inductive IdeaResponse where
  | wrapped (idea : IdeaDetail)
  | direct (idea : IdeaDetail)
deriving DecidableEq

/-- Embeds the key test `"idea" in data` (index.ts lines 223, 259): true
exactly for the wrapped shape, since `IdeaDetail` has no `idea` field. -/
def hasIdeaKey : IdeaResponse → Bool
  | .wrapped _ => true
  | .direct _ => false

/-- Embeds `"idea" in data ? data.idea : data` (index.ts lines 223, 259). -/
def unwrapIdea : IdeaResponse → IdeaDetail
  | .wrapped d => d
  | .direct d => d

/-- The request issued by `list_ideas` (index.ts lines 197-199): a GET,
default options, path with the two query parameters interpolated. -/
def listIdeasRequest (page per_page : Int) : Request :=
  { method := "GET"
  , path := "/api/v1/ideas?page=" ++ toString page ++ "&per_page="
      ++ toString per_page
  , body := none }

/-- The result text of `list_ideas` (index.ts lines 201-205). -/
def listIdeasText (data : IdeasListResponse) : String :=
  let summaries := joinSep "\n\n" (List.map formatIdeaSummary data.ideas)
  let pagination := "\nPage " ++ toString data.meta.current_page ++ " of "
      ++ toString data.meta.total_pages ++ " ("
      ++ toString data.meta.total_count ++ " total ideas)"
  summaries ++ "\n" ++ pagination

/-- The request issued by `get_idea` (index.ts lines 218-220). -/
def getIdeaRequest (idea_id : Nat) : Request :=
  { method := "GET", path := "/api/v1/ideas/" ++ toString idea_id, body := none }

/-- The result text of `get_idea` (index.ts lines 223-227). -/
def getIdeaText (data : IdeaResponse) : String :=
  formatIdeaDetail (unwrapIdea data)

/-- The `get_idea` handler from response to result (index.ts lines 217-228):
an `apiRequest` failure propagates unchanged through the `await`. -/
def getIdeaTool (parse : String → Except String IdeaResponse)
    (resp : HttpResponse) : Except String String :=
  Except.map (fun data => getIdeaText data) (apiRequest parse resp)

/-- Embeds the body assembly of `create_idea` (index.ts lines 249-252):
`body = { title, visibility }; if (content) body.content = content`.
JavaScript truthiness: `undefined` and `""` are both falsy. -/
def createIdeaBody (title visibility : String) (content : Option String) :
    CreateIdeaBody :=
  { title := title
  , visibility := visibility
  , content :=
      if (match content with
          | none => false
          | some s => !(s == "")) then content else none }

/-- The request issued by `create_idea` (index.ts lines 254-257). -/
def createIdeaRequest (body : CreateIdeaBody) : Request :=
  { method := "POST", path := "/api/v1/ideas", body := some body }

/-- The result text of `create_idea` (index.ts lines 259-267). -/
def createIdeaText (data : IdeaResponse) : String :=
  "Idea created successfully!\n\n" ++ formatIdeaDetail (unwrapIdea data)

/-- Embeds the zod chain `z.number().int().positive()` used for `page`
(index.ts lines 182-186), applied to an arbitrary JSON number, modelled as
a rational: `.int()` rejects non-integers, `.positive()` rejects values
that are not strictly positive. -/
def zodPositiveInt (v : Rat) : Except String Int :=
  if v.den = 1 then
    if 0 < v then Except.ok v.num
    else Except.error "Number must be greater than 0"
  else Except.error "Expected integer, received float"

/-- The `page` parameter schema (index.ts lines 182-187): positive integer,
default 1 when the parameter is absent. -/
def zodPage : Option Rat → Except String Int
  | none => Except.ok 1
  | some v => zodPositiveInt v

/-- The `per_page` parameter schema (index.ts lines 188-194): positive
integer, `.max(100)` rejecting values above 100, default 20 when absent. -/
def zodPerPage : Option Rat → Except String Int
  | none => Except.ok 20
  | some v =>
      if v.den = 1 then
        if 0 < v then
          if v ≤ 100 then Except.ok v.num
          else Except.error "Number must be less than or equal to 100"
        else Except.error "Number must be greater than 0"
      else Except.error "Expected integer, received float"

/-- `list_ideas` from raw parameters to the request it issues (index.ts
lines 178-199): the schema layer validates `page` and `per_page` first, and
only a successful validation reaches the handler and produces a request. -/
def listIdeasValidate (rawPage rawPerPage : Option Rat) :
    Except String Request :=
  match zodPage rawPage with
  | Except.error e => Except.error e
  | Except.ok page =>
      match zodPerPage rawPerPage with
      | Except.error e => Except.error e
      | Except.ok perPage => Except.ok (listIdeasRequest page perPage)

/-! Concrete sample values, used by counterexamples and witnesses. -/

/-- A sample user. -/
def sUser : SimplifiedUser :=
  { id := 1, display_name := "Alice", avatar_path := none }

/-- A sample line at position 2. -/
def sLineA : IdeaLine :=
  { id := 11, line_type := "paragraph", content := "second", position := 2
  , comments_count := 0, created_at := "t1", updated_at := "t1" }

/-- A sample line at position 1. -/
def sLineB : IdeaLine :=
  { id := 12, line_type := "heading", content := "first", position := 1
  , comments_count := 2, created_at := "t2", updated_at := "t2" }

/-- A sample reaction. -/
def sReaction : Reaction :=
  { id := 21, reaction_type := "fire", created_at := "t3", user := sUser }

/-- A sample idea whose lines arrive out of position order. -/
def sIdeaUnsorted : IdeaDetail :=
  { id := 5, title := "Demo", visibility := "public", current_stage := "seed"
  , reactions_count := 1, is_bookmarked := false, created_at := "t0"
  , updated_at := "t0", user := sUser, lines := [sLineA, sLineB]
  , reactions := [sReaction] }

/-- A sample idea summary. -/
def sSummary : IdeaSummary :=
  { id := 7, title := "T", visibility := "public", current_stage := "seed"
  , reactions_count := 0, comments_count := 0, is_bookmarked := false
  , created_at := "c", updated_at := "u", user := sUser }

/-- A sample list response with one idea. -/
def sListResponse : IdeasListResponse :=
  { ideas := [sSummary]
  , meta := { current_page := 1, total_pages := 3, total_count := 41 } }

/-- A sample successful HTTP response. -/
def sRespOk : HttpResponse :=
  { status := 200, statusText := "OK", body := "\x7b\x7d" }

/-- A sample failing HTTP response. -/
def sRespErr : HttpResponse :=
  { status := 422, statusText := "Unprocessable Entity"
  , body := "\x7b\"error\":\"title required\"\x7d" }

/-- A sample abstract JSON parser for an arbitrary payload type. -/
def sParseUnit (s : String) : Except String Unit :=
  if s = "" then Except.error "Unexpected end of JSON input" else Except.ok ()

/-- A sample abstract JSON parser for idea responses. -/
def sParseIdea (s : String) : Except String IdeaResponse :=
  if s = "" then Except.error "Unexpected end of JSON input"
  else Except.ok (IdeaResponse.direct sIdeaUnsorted)

/-! Helper lemmas shared by several claim proofs. -/

/-- Every element of a joined list occurs verbatim inside the join. -/
theorem joinSep_mem_split (sep : String) :
    ∀ (l : List String) (a : String), a ∈ l →
      ∃ u v, joinSep sep l = u ++ a ++ v
  | [], a, h => absurd h (List.not_mem_nil a)
  | [s], a, h => by
      rcases List.mem_singleton.mp h with rfl
      exact ⟨"", "", by simp [joinSep]⟩
  | s :: r :: rest, a, h => by
      rcases List.mem_cons.mp h with rfl | h2
      · exact ⟨"", sep ++ joinSep sep (r :: rest),
          by simp [joinSep, String.append_assoc]⟩
      · obtain ⟨u, v, hu⟩ := joinSep_mem_split sep (r :: rest) a h2
        exact ⟨s ++ sep ++ u, v, by simp [joinSep, hu, String.append_assoc]⟩

/-- The line ordering is transitive. -/
theorem lineLE_trans (a b c : IdeaLine) (hab : lineLE a b) (hbc : lineLE b c) :
    lineLE a c := by
  simp only [lineLE, decide_eq_true_eq] at hab hbc ⊢
  omega

/-- The line ordering is total. -/
theorem lineLE_total (a b : IdeaLine) : lineLE a b || lineLE b a := by
  simp only [lineLE, Bool.or_eq_true, decide_eq_true_eq]
  omega

/-- Sorting the lines yields a permutation of the input. -/
theorem sortLines_perm (l : List IdeaLine) : (sortLines l).Perm l :=
  List.mergeSort_perm l lineLE

/-- Sorted lines are pairwise ordered by position. -/
theorem sortLines_pairwise (l : List IdeaLine) :
    (sortLines l).Pairwise (fun a b => a.position ≤ b.position) := by
  have h := List.sorted_mergeSort lineLE_trans lineLE_total l
  exact h.imp (fun hab => by simpa [lineLE] using hab)

/-- Stability of the sort, phrased per position value: the lines at any
fixed position come out in exactly the order they went in. -/
theorem sortLines_filter_position (l : List IdeaLine) (k : Int) :
    List.filter (fun x => decide (x.position = k)) (sortLines l)
      = List.filter (fun x => decide (x.position = k)) l := by
  have hsub : List.Sublist (List.filter (fun x => decide (x.position = k)) l)
      (sortLines l) := by
    apply List.sublist_mergeSort lineLE_trans lineLE_total
    · refine List.pairwise_of_forall_mem_list ?_
      intro a ha b hb
      have hak := (List.mem_filter.mp ha).2
      have hbk := (List.mem_filter.mp hb).2
      simp only [decide_eq_true_eq] at hak hbk
      simp [lineLE, hak, hbk]
    · exact List.filter_sublist l
  have hsub2 := hsub.filter (fun x => decide (x.position = k))
  rw [List.filter_eq_self.mpr (fun a ha => (List.mem_filter.mp ha).2)] at hsub2
  have hlen : (List.filter (fun x => decide (x.position = k)) (sortLines l)).length
      = (List.filter (fun x => decide (x.position = k)) l).length :=
    ((sortLines_perm l).filter _).length_eq
  exact (hsub2.eq_of_length hlen.symm).symm

/-- Concrete evaluation of the sort on the two sample lines (position 2
followed by position 1 comes out swapped). -/
theorem sortLines_sample : sortLines [sLineA, sLineB] = [sLineB, sLineA] := by
  have h : ¬ (sLineA.position ≤ sLineB.position) := by decide
  simp [sortLines, List.mergeSort, List.splitInTwo, List.merge, List.splitAt,
    List.splitAt.go, lineLE, h]

/-! The claims. -/

/-- C1: the content section of `formatIdeaDetail` renders, when at least one
line exists, the lines sorted ascending by position with ties kept in input
order, each line prefixed with a heading marker exactly when its type is
"heading" and annotated with its comment count exactly when that count is
positive, the paragraphs joined by blank lines; with zero lines it renders
the fixed placeholder and no content heading. -/
theorem claim1_content_section (d : IdeaDetail) :
    (sortLines d.lines).Perm d.lines
  ∧ (sortLines d.lines).Pairwise (fun a b => a.position ≤ b.position)
  ∧ (∀ k : Int, List.filter (fun x => decide (x.position = k)) (sortLines d.lines)
        = List.filter (fun x => decide (x.position = k)) d.lines)
  ∧ formatIdeaDetail d =
      ideaHeader d
        ++ (if d.lines = [] then "\n\n(No content yet)"
            else "\n\n## Content\n\n" ++
              joinSep "\n\n" (List.map (fun line =>
                  (if line.line_type = "heading" then "### " else "")
                    ++ line.content
                    ++ (if 0 < line.comments_count then
                          " [" ++ toString line.comments_count ++ " comments]"
                        else ""))
                (sortLines d.lines)))
        ++ ideaReactions d := by
  refine ⟨sortLines_perm d.lines, sortLines_pairwise d.lines,
    fun k => sortLines_filter_position d.lines k, ?_⟩
  show ideaHeader d ++ ideaContent d ++ ideaReactions d = _
  rcases hl : d.lines with _ | ⟨x, xs⟩
  · simp [ideaContent, hl]
  · simp [ideaContent, hl]

/-- C2 counterexample: formatting is not free of side effects — on the
sample idea whose lines arrive as positions [2, 1], the call leaves the
idea's lines array reordered, so the input value is not left exactly as
received. -/
theorem claim2_counterexample :
    ¬ ((formatIdeaDetailRun sIdeaUnsorted).2 = sIdeaUnsorted) := by
  intro h
  have h2 : sortLines [sLineA, sLineB] = [sLineA, sLineB] :=
    congrArg IdeaDetail.lines h
  rw [sortLines_sample] at h2
  have : sLineB = sLineA := (List.cons.injEq _ _ _ _ ▸ h2).1
  exact absurd this (by decide)

/-- C2 amended: the formatters are deterministic (the text is a function of
the input value alone), and `formatIdeaDetail` leaves every field of the
idea unchanged except `lines`, which it reorders in place into ascending
position order — a permutation of the received elements; `formatIdeaSummary`
mutates nothing. -/
theorem claim2_amended (d : IdeaDetail) :
    (formatIdeaDetailRun d).1 = formatIdeaDetail d
  ∧ ((formatIdeaDetailRun d).2.lines).Perm d.lines
  ∧ (formatIdeaDetailRun d).2.lines = sortLines d.lines
  ∧ ((formatIdeaDetailRun d).2.lines).Pairwise (fun a b => a.position ≤ b.position)
  ∧ (formatIdeaDetailRun d).2.id = d.id
  ∧ (formatIdeaDetailRun d).2.title = d.title
  ∧ (formatIdeaDetailRun d).2.visibility = d.visibility
  ∧ (formatIdeaDetailRun d).2.current_stage = d.current_stage
  ∧ (formatIdeaDetailRun d).2.reactions_count = d.reactions_count
  ∧ (formatIdeaDetailRun d).2.is_bookmarked = d.is_bookmarked
  ∧ (formatIdeaDetailRun d).2.created_at = d.created_at
  ∧ (formatIdeaDetailRun d).2.updated_at = d.updated_at
  ∧ (formatIdeaDetailRun d).2.user = d.user
  ∧ (formatIdeaDetailRun d).2.reactions = d.reactions :=
  ⟨rfl, sortLines_perm d.lines, rfl, sortLines_pairwise d.lines, rfl, rfl, rfl,
    rfl, rfl, rfl, rfl, rfl, rfl, rfl⟩

/-- C3: `get_idea` and `create_idea` produce identical formatted output
whether the API response is the idea object directly or wrapped under an
`idea` key. -/
theorem claim3_unwrap_equiv (d : IdeaDetail) :
    getIdeaText (IdeaResponse.wrapped d) = getIdeaText (IdeaResponse.direct d)
  ∧ createIdeaText (IdeaResponse.wrapped d)
      = createIdeaText (IdeaResponse.direct d)
  ∧ hasIdeaKey (IdeaResponse.wrapped d) = true
  ∧ hasIdeaKey (IdeaResponse.direct d) = false :=
  ⟨rfl, rfl, rfl, rfl⟩

/-- C9: the reactions section of `formatIdeaDetail` is a heading followed by
one bullet per reaction (reaction type and reactor display name) when at
least one reaction exists, and is omitted entirely — empty, no heading —
when there are zero reactions. -/
theorem claim9_reactions_section (d : IdeaDetail) :
    formatIdeaDetail d =
      ideaHeader d ++ ideaContent d
        ++ (if d.reactions = [] then ""
            else "\n\n## Reactions\n\n" ++
              joinSep "\n" (List.map (fun r =>
                  "- " ++ r.reaction_type ++ " by " ++ r.user.display_name)
                d.reactions)) := by
  show ideaHeader d ++ ideaContent d ++ ideaReactions d = _
  rcases hr : d.reactions with _ | ⟨x, xs⟩
  · simp [ideaReactions, hr]
  · simp [ideaReactions, hr]

/-- C10: with at least one reaction, the reactions section renders exactly
one bullet per element of the reactions array, in the input order — bullet
i is the rendering of reaction i, and the bullet count equals the array
length. -/
theorem claim10_reaction_bullets (d : IdeaDetail) (h : d.reactions ≠ []) :
    ∃ bullets : List String,
      ideaReactions d = "\n\n## Reactions\n\n" ++ joinSep "\n" bullets
    ∧ bullets.length = d.reactions.length
    ∧ ∀ i : Nat, bullets[i]? = Option.map (fun r =>
        "- " ++ r.reaction_type ++ " by " ++ r.user.display_name)
        d.reactions[i]? := by
  refine ⟨List.map (fun r =>
      "- " ++ r.reaction_type ++ " by " ++ r.user.display_name) d.reactions,
    ?_, ?_, ?_⟩
  · have hlen : 0 < d.reactions.length := List.length_pos.mpr h
    simp [ideaReactions, hlen]
  · exact List.length_map _ _
  · intro i
    exact List.getElem?_map _ d.reactions i

/-- The `list_ideas` result text, written out: joined summaries, then a
newline, then the pagination line (which itself begins with a newline). -/
theorem listIdeasText_eq (data : IdeasListResponse) :
    listIdeasText data =
      joinSep "\n\n" (List.map formatIdeaSummary data.ideas) ++ "\n"
        ++ ("\nPage " ++ toString data.meta.current_page ++ " of "
            ++ toString data.meta.total_pages ++ " ("
            ++ toString data.meta.total_count ++ " total ideas)") := rfl

/-- C4: for valid page and per_page, `list_ideas` issues a GET to
/api/v1/ideas whose query string carries exactly those two parameters, and
its result text contains the formatted summary of every idea of the
response and ends with the pagination footer. -/
theorem claim4_list_ideas (page per_page : Int) (data : IdeasListResponse)
    (s : IdeaSummary) (hpage : 1 ≤ page) (hmin : 1 ≤ per_page)
    (hmax : per_page ≤ 100) (hs : s ∈ data.ideas) :
    (listIdeasRequest page per_page).method = "GET"
  ∧ (listIdeasRequest page per_page).path =
      "/api/v1/ideas?page=" ++ toString page ++ "&per_page=" ++ toString per_page
  ∧ (listIdeasRequest page per_page).body = none
  ∧ (∃ u v, listIdeasText data = u ++ formatIdeaSummary s ++ v)
  ∧ (∃ u, listIdeasText data = u ++ ("Page " ++ toString data.meta.current_page
      ++ " of " ++ toString data.meta.total_pages ++ " ("
      ++ toString data.meta.total_count ++ " total ideas)")) := by
  refine ⟨rfl, rfl, rfl, ?_, ?_⟩
  · obtain ⟨u, v, hu⟩ := joinSep_mem_split "\n\n"
      (List.map formatIdeaSummary data.ideas) (formatIdeaSummary s)
      (List.mem_map_of_mem formatIdeaSummary hs)
    refine ⟨u, v ++ ("\n" ++ ("\nPage " ++ toString data.meta.current_page
      ++ " of " ++ toString data.meta.total_pages ++ " ("
      ++ toString data.meta.total_count ++ " total ideas)")), ?_⟩
    rw [listIdeasText_eq data, hu]
    simp [String.append_assoc]
  · refine ⟨joinSep "\n\n" (List.map formatIdeaSummary data.ideas)
      ++ "\n\n", ?_⟩
    rw [listIdeasText_eq data]
    simp only [String.append_assoc]
    rw [← String.append_assoc "\n" "\nPage ",
      show ("\n" : String) ++ "\nPage " = "\n\n" ++ "Page " by decide,
      String.append_assoc]

/-- C4 witness: instantiated at page 1, per_page 20 and the sample list
response. -/
theorem claim4_witness :
    (1 : Int) ≤ 1 ∧ (1 : Int) ≤ 20 ∧ (20 : Int) ≤ 100
  ∧ sSummary ∈ sListResponse.ideas
  ∧ ((listIdeasRequest 1 20).method = "GET"
    ∧ (listIdeasRequest 1 20).path = "/api/v1/ideas?page="
        ++ toString (1 : Int) ++ "&per_page=" ++ toString (20 : Int)
    ∧ (listIdeasRequest 1 20).body = none
    ∧ (∃ u v, listIdeasText sListResponse
        = u ++ formatIdeaSummary sSummary ++ v)
    ∧ (∃ u, listIdeasText sListResponse
        = u ++ ("Page " ++ toString sListResponse.meta.current_page ++ " of "
            ++ toString sListResponse.meta.total_pages ++ " ("
            ++ toString sListResponse.meta.total_count ++ " total ideas)"))) :=
  ⟨by decide, by decide, by decide, by decide,
   claim4_list_ideas 1 20 sListResponse sSummary (by decide) (by decide)
     (by decide) (by decide)⟩

/-- C5: the `create_idea` request body always carries the title and
visibility, and carries a `content` key exactly when a non-empty content
string was supplied; when it carries one, the value is the supplied string
unchanged. -/
theorem claim5_create_body (t v : String) (c : Option String) :
    (createIdeaBody t v c).title = t
  ∧ (createIdeaBody t v c).visibility = v
  ∧ (createIdeaRequest (createIdeaBody t v c)).method = "POST"
  ∧ (createIdeaRequest (createIdeaBody t v c)).path = "/api/v1/ideas"
  ∧ (createIdeaRequest (createIdeaBody t v c)).body = some (createIdeaBody t v c)
  ∧ ((createIdeaBody t v c).content ≠ none ↔ ∃ s : String, c = some s ∧ s ≠ "")
  ∧ ((createIdeaBody t v c).content = none ∨ (createIdeaBody t v c).content = c) := by
  refine ⟨rfl, rfl, rfl, rfl, rfl, ?_, ?_⟩
  · rcases c with _ | s
    · simp [createIdeaBody]
    · by_cases hs : s = ""
      · subst hs
        simp [createIdeaBody]
      · simp [createIdeaBody, hs]
  · rcases c with _ | s
    · simp [createIdeaBody]
    · by_cases hs : s = ""
      · simp [createIdeaBody, hs]
      · simp [createIdeaBody, hs]

/-- C6: `apiRequest` returns the parsed JSON body on an HTTP success
status, and on any non-success status fails with a message that contains
the status code, the status text and the raw body, a failure that reaches
the calling tool handler unchanged. -/
theorem claim6_api_error (T : Type) (parse : String → Except String T)
    (parseG : String → Except String IdeaResponse) (resp : HttpResponse) :
    (resp.ok = true → apiRequest parse resp = parse resp.body)
  ∧ (resp.ok = false → ∃ msg : String,
        apiRequest parse resp = Except.error msg
      ∧ (∃ u v, msg = u ++ toString resp.status ++ v)
      ∧ (∃ u v, msg = u ++ resp.statusText ++ v)
      ∧ (∃ u, msg = u ++ resp.body)
      ∧ getIdeaTool parseG resp = Except.error msg) := by
  constructor
  · intro h
    simp [apiRequest, h]
  · intro h
    refine ⟨"API request failed: " ++ toString resp.status ++ " "
        ++ resp.statusText ++ " - " ++ resp.body, ?_, ?_, ?_, ?_, ?_⟩
    · simp [apiRequest, h]
    · exact ⟨"API request failed: ",
        " " ++ resp.statusText ++ " - " ++ resp.body,
        by simp [String.append_assoc]⟩
    · exact ⟨"API request failed: " ++ toString resp.status ++ " ",
        " - " ++ resp.body, by simp [String.append_assoc]⟩
    · exact ⟨"API request failed: " ++ toString resp.status ++ " "
        ++ resp.statusText ++ " - ", rfl⟩
    · simp [getIdeaTool, apiRequest, h, Except.map]

/-- C6 witness: instantiated at a 200 response and at a 422 response with
concrete parsers. -/
theorem claim6_witness :
    sRespOk.ok = true
  ∧ apiRequest sParseUnit sRespOk = sParseUnit sRespOk.body
  ∧ sRespErr.ok = false
  ∧ (∃ msg : String,
        apiRequest sParseUnit sRespErr = Except.error msg
      ∧ (∃ u v, msg = u ++ toString sRespErr.status ++ v)
      ∧ (∃ u v, msg = u ++ sRespErr.statusText ++ v)
      ∧ (∃ u, msg = u ++ sRespErr.body)
      ∧ getIdeaTool sParseIdea sRespErr = Except.error msg) :=
  ⟨by decide,
   (claim6_api_error Unit sParseUnit sParseIdea sRespOk).1 (by decide),
   by decide,
   (claim6_api_error Unit sParseUnit sParseIdea sRespErr).2 (by decide)⟩

/-- C7: the declared `list_ideas` parameter schema rejects, before any
request is built, every per_page above 100 or at most 0 and every page at
most 0 (non-integer values included, since the inputs range over the
rationals); omitted parameters default to page 1 and per_page 20. -/
theorem claim7_validation (p pp : Rat) :
    ((100 < pp ∨ pp ≤ 0 ∨ p ≤ 0) →
        ∃ e : String, listIdeasValidate (some p) (some pp) = Except.error e)
  ∧ listIdeasValidate none none = Except.ok (listIdeasRequest 1 20) := by
  constructor
  · intro h
    cases hzp : zodPositiveInt p with
    | error e =>
        exact ⟨e, by simp [listIdeasValidate, zodPage, hzp]⟩
    | ok n =>
        have hperr : ∃ e2, zodPerPage (some pp) = Except.error e2 := by
          rcases h with h1 | h2 | h3
          · by_cases hden : pp.den = 1
            · by_cases hpos : 0 < pp
              · exact ⟨"Number must be less than or equal to 100",
                  by simp [zodPerPage, hden, hpos, not_le.mpr h1]⟩
              · exact ⟨"Number must be greater than 0",
                  by simp [zodPerPage, hden, hpos]⟩
            · exact ⟨"Expected integer, received float",
                by simp [zodPerPage, hden]⟩
          · by_cases hden : pp.den = 1
            · have hnpos : ¬ 0 < pp := not_lt.mpr h2
              exact ⟨"Number must be greater than 0",
                by simp [zodPerPage, hden, hnpos]⟩
            · exact ⟨"Expected integer, received float",
                by simp [zodPerPage, hden]⟩
          · exfalso
            have hnpos : ¬ 0 < p := not_lt.mpr h3
            by_cases hden : p.den = 1 <;>
              simp [zodPositiveInt, hden, hnpos] at hzp
        obtain ⟨e2, he2⟩ := hperr
        exact ⟨e2, by simp [listIdeasValidate, zodPage, hzp, he2]⟩
  · rfl

/-- C7 witness: per_page 101 with page 1 is rejected; omitted parameters
validate to the default request for page 1, per_page 20. -/
theorem claim7_witness :
    ((100 : Rat) < 101 ∨ (101 : Rat) ≤ 0 ∨ (1 : Rat) ≤ 0)
  ∧ (∃ e : String, listIdeasValidate (some 1) (some 101) = Except.error e)
  ∧ listIdeasValidate none none = Except.ok (listIdeasRequest 1 20) :=
  ⟨Or.inl (by norm_num),
   (claim7_validation 1 101).1 (Or.inl (by norm_num)),
   (claim7_validation 1 101).2⟩

/-- C8 counterexample: the claim fails on an environment value consisting
of a single slash — stripping its trailing slashes leaves the empty
string, yet the base URL used is the default, not that empty string. -/
theorem claim8_counterexample :
    apiBaseUrl (some "/") ≠ stripTrailingSlashes "/" := by decide

/-- C8 amended: the base URL equals the environment value with trailing
slashes stripped whenever that stripped value is non-empty; when the
variable is unset, or stripping leaves the empty string (the value was
empty or consisted only of slashes), the base URL is the default
https://tanebi.app. -/
theorem claim8_amended (s : String) :
    (stripTrailingSlashes s ≠ "" → apiBaseUrl (some s) = stripTrailingSlashes s)
  ∧ (stripTrailingSlashes s = "" → apiBaseUrl (some s) = "https://tanebi.app")
  ∧ apiBaseUrl none = "https://tanebi.app" := by
  refine ⟨?_, ?_, rfl⟩
  · intro h
    simp [apiBaseUrl, h]
  · intro h
    simp [apiBaseUrl, h]

/-- C8 witness: instantiated at a URL with trailing slashes and at a value
of slashes only. -/
theorem claim8_witness :
    stripTrailingSlashes "https://tanebi.app///" ≠ ""
  ∧ apiBaseUrl (some "https://tanebi.app///")
      = stripTrailingSlashes "https://tanebi.app///"
  ∧ stripTrailingSlashes "///" = ""
  ∧ apiBaseUrl (some "///") = "https://tanebi.app"
  ∧ apiBaseUrl none = "https://tanebi.app" :=
  ⟨by decide, (claim8_amended "https://tanebi.app///").1 (by decide),
   by decide, (claim8_amended "///").2.1 (by decide),
   (claim8_amended "///").2.2⟩

/-- C10 witness: instantiated on the sample idea, which has one reaction. -/
theorem claim10_witness :
    sIdeaUnsorted.reactions ≠ []
  ∧ ∃ bullets : List String,
      ideaReactions sIdeaUnsorted = "\n\n## Reactions\n\n" ++ joinSep "\n" bullets
    ∧ bullets.length = sIdeaUnsorted.reactions.length
    ∧ ∀ i : Nat, bullets[i]? = Option.map (fun r =>
        "- " ++ r.reaction_type ++ " by " ++ r.user.display_name)
        sIdeaUnsorted.reactions[i]? :=
  ⟨by decide, claim10_reaction_bullets sIdeaUnsorted (by decide)⟩

end Tanebi
